import Mathlib

/-!
# Verification of the smart-research-assistant pipeline

A shallow embedding of the repository `smart_research_assistant` (a linear
LangGraph pipeline: search -> analyze -> validate -> summarize -> format).

Python strings are modelled as lists of character codes (`PyStr := List Nat`);
all character-class predicates (whitespace, digits, letters) are the ASCII
fragments of Python's semantics, which is faithful for the ASCII data the
repository manipulates.  Fallible external collaborators (the Tavily search
tiers, the Gemini LLM, the reportlab layout engine) are modelled as `Option`
valued oracles passed in as parameters; `none` models the collaborator
raising an exception.  Every stage of the pipeline is a total Lean function,
so running the composed pipeline models a run that reaches the Terminal
state of the workflow graph.
-/

set_option maxRecDepth 4000

namespace SRA

/-- Python strings, as lists of Unicode code points. -/
abbrev PyStr := List Nat

/-- Embed a Lean string literal as a `PyStr` (code-point list). -/
def pystr (s : String) : PyStr := s.toList.map Char.toNat

/-- Python whitespace (`str.split()` / `str.strip()` / regex `\s`), ASCII part:
tab, newline, vertical tab, form feed, carriage return, space. -/
def isWs (c : Nat) : Bool := c = 9 || c = 10 || c = 11 || c = 12 || c = 13 || c = 32

/-- ASCII decimal digit (regex `\d`, ASCII part). -/
def isDigitC (c : Nat) : Bool := 48 ≤ c && c ≤ 57

/-- ASCII uppercase letter (regex `[A-Z]`). -/
def isUpperC (c : Nat) : Bool := 65 ≤ c && c ≤ 90

/-- ASCII lowercase letter (regex `[a-z]`). -/
def isLowerC (c : Nat) : Bool := 97 ≤ c && c ≤ 122

/-- ASCII letter (regex `[a-zA-Z]`). -/
def isAlphaC (c : Nat) : Bool := isUpperC c || isLowerC c

/-- ASCII letter or digit (`str.isalnum`, ASCII part). -/
def isAlnumC (c : Nat) : Bool := isAlphaC c || isDigitC c

/-- Regex word character `\w` (ASCII part), used for `\b` word boundaries. -/
def isWordC (c : Nat) : Bool := isAlnumC c || c = 95

/-- `str.lower` on one character (ASCII part). -/
def toLowerC (c : Nat) : Nat := if 65 ≤ c ∧ c ≤ 90 then c + 32 else c

/-- `str.upper` on one character (ASCII part). -/
def toUpperC (c : Nat) : Nat := if 97 ≤ c ∧ c ≤ 122 then c - 32 else c

/-- `str.lower` (ASCII part). -/
def pyLower (s : PyStr) : PyStr := s.map toLowerC

/-- `str.strip()`: drop leading and trailing whitespace. -/
def pyStrip (s : PyStr) : PyStr :=
  ((s.dropWhile isWs).reverse.dropWhile isWs).reverse

/-- `str.rstrip()`: drop trailing whitespace. -/
def pyRstrip (s : PyStr) : PyStr :=
  (s.reverse.dropWhile isWs).reverse

/-- Helper for `pySplitCh`: `cur` is the (reversed) pending field. -/
def pySplitChAux (sep : Nat) : PyStr → PyStr → List PyStr
  | cur, [] => [cur.reverse]
  | cur, c :: cs =>
    if c = sep then cur.reverse :: pySplitChAux sep [] cs
    else pySplitChAux sep (c :: cur) cs

/-- Python `str.split(sep)` for a one-character separator: keeps empty fields
(`"".split(c) == [""]`). -/
def pySplitCh (sep : Nat) (s : PyStr) : List PyStr := pySplitChAux sep [] s

/-- Helper for `pySplitWs`: `cur` is the (reversed) pending word. -/
def pySplitWsAux : PyStr → PyStr → List PyStr
  | cur, [] => if cur = [] then [] else [cur.reverse]
  | cur, c :: cs =>
    if isWs c then
      if cur = [] then pySplitWsAux [] cs else cur.reverse :: pySplitWsAux [] cs
    else pySplitWsAux (c :: cur) cs

/-- Python `str.split()` with no separator: split on whitespace runs,
discarding empty fields. -/
def pySplitWs (s : PyStr) : List PyStr := pySplitWsAux [] s

/-- `sep.join(xs)`. -/
def pyJoin (sep : PyStr) : List PyStr → PyStr
  | [] => []
  | [x] => x
  | x :: y :: rest => x ++ sep ++ pyJoin sep (y :: rest)

/-- Python substring test `pat in s`. -/
def isSubstr (pat s : PyStr) : Bool := s.tails.any (fun t => pat.isPrefixOf t)

/-- Decimal rendering of a natural number (for f-string interpolation of
section numbers and source indices); `fuel` bounds the recursion. -/
def natToStrAux : Nat → Nat → PyStr → PyStr
  | 0, _, acc => acc
  | fuel + 1, n, acc =>
    if n < 10 then (48 + n) :: acc
    else natToStrAux fuel (n / 10) ((48 + n % 10) :: acc)

/-- Decimal rendering of a natural number as a `PyStr`. -/
def natToStr (n : Nat) : PyStr := natToStrAux (n + 1) n []

/-! ## Data model (models/state_schema.py and the dicts built by the agents) -/

/-- A document record as built by `search_agent` (`agents/search_agent.py`). -/
structure Document where
  id : PyStr
  title : PyStr
  url : PyStr
  snippet : PyStr
  raw_content : PyStr
  source_domain : PyStr
deriving DecidableEq

/-- The `analysis_result` dict built by `analyze_agent`
(`agents/analysis_agent.py`).  The empty-collection branch sets `summary`
and leaves `content_quality` absent; the main branch does the opposite;
`Option` models the absent key. -/
structure Analysis where
  keywords : List PyStr
  themes : List PyStr
  summary : Option PyStr
  num_sources : Nat
  content_quality : Option PyStr
deriving DecidableEq

/-- The `validation_result` dict built by `validator_agent`
(`agents/validator_agent.py`). -/
structure Validation where
  has_sufficient_sources : Bool
  has_key_themes : Bool
  document_quality : PyStr
  source_count : Nat
  theme_count : Nat
  recommendations : List PyStr
deriving DecidableEq

/-- The `formatted_report` dict built by `formatter_agent`
(`agents/formatter_agent.py`).  The success branch fills `keywords` and
`validation_score` and leaves `error` absent; the exception branch omits
`keywords` and `validation_score` and fills `error`. -/
structure Report where
  title : PyStr
  summary_length : Nat
  key_findings : List PyStr
  keywords : Option (List PyStr)
  sources_used : Nat
  validation_status : PyStr
  validation_score : Option PyStr
  error : Option PyStr
deriving DecidableEq

/-- The shared workflow state (`models/state_schema.py`, `ResearchState`).
Fields that a stage has not written yet hold their Python `.get` defaults
(`""`, `[]`) or `none` for dict-valued fields. -/
structure ResearchState where
  topic_query : PyStr
  raw_documents : List Document
  analysis_result : Option Analysis
  validation_result : Option Validation
  final_summary : PyStr
  formatted_report : Option Report
  pdf_path : PyStr
deriving DecidableEq

/-- The state at workflow entry: only the topic is set
(`main.py`, `app.invoke({"topic_query": topic_query})`). -/
def initState (topic : PyStr) : ResearchState :=
  ⟨topic, [], none, none, [], none, []⟩

/-- Merge of a search-stage partial result into the state (LangGraph merges
the returned dict into the running state; each stage writes only its own
fields). -/
def setRawDocuments (s : ResearchState) (docs : List Document) : ResearchState :=
  ⟨s.topic_query, docs, s.analysis_result, s.validation_result, s.final_summary,
   s.formatted_report, s.pdf_path⟩

/-- Merge of the analysis-stage partial result into the state. -/
def setAnalysis (s : ResearchState) (a : Analysis) : ResearchState :=
  ⟨s.topic_query, s.raw_documents, some a, s.validation_result, s.final_summary,
   s.formatted_report, s.pdf_path⟩

/-- Merge of the validation-stage partial result into the state. -/
def setValidation (s : ResearchState) (v : Validation) : ResearchState :=
  ⟨s.topic_query, s.raw_documents, s.analysis_result, some v, s.final_summary,
   s.formatted_report, s.pdf_path⟩

/-- Merge of the summarize-stage partial result into the state. -/
def setSummary (s : ResearchState) (sum : PyStr) : ResearchState :=
  ⟨s.topic_query, s.raw_documents, s.analysis_result, s.validation_result, sum,
   s.formatted_report, s.pdf_path⟩

/-- Merge of the format-stage partial result into the state. -/
def setReport (s : ResearchState) (r : Report) (path : PyStr) : ResearchState :=
  ⟨s.topic_query, s.raw_documents, s.analysis_result, s.validation_result,
   s.final_summary, some r, path⟩

/-! ## Lexical analyzer (agents/analysis_agent.py) -/

/-- Helper for `wordRuns`: `cur` is the (reversed) pending run. -/
def wordRunsAux : PyStr → PyStr → List PyStr
  | cur, [] => if cur = [] then [] else [cur.reverse]
  | cur, c :: cs =>
    if isWordC c then wordRunsAux (c :: cur) cs
    else if cur = [] then wordRunsAux [] cs
    else cur.reverse :: wordRunsAux [] cs

/-- Maximal runs of regex word characters (`\w+`) in a string. -/
def wordRuns (s : PyStr) : List PyStr := wordRunsAux [] s

/-- `re.findall(r"\b[a-zA-Z]{n,}\b", s)`: a match is a maximal word-character
run that is entirely alphabetic and at least `n` long (the `\b` anchors sit
exactly at the edges of maximal `\w` runs). -/
def alphaTokens (n : Nat) (s : PyStr) : List PyStr :=
  (wordRuns s).filter (fun w => w.all isAlphaC && decide (n ≤ w.length))

/-- Increment the count of key `k` in an association list, appending a fresh
entry when absent; keys stay in first-seen order, as in a Python dict. -/
def bumpCount (k : PyStr) : List (PyStr × Nat) → List (PyStr × Nat)
  | [] => [(k, 1)]
  | (k', n) :: rest =>
    if k' = k then (k', n + 1) :: rest else (k', n) :: bumpCount k rest

/-- `collections.Counter(ws)` as an association list whose keys appear in
first-seen order with their multiplicities. -/
def countsList (ws : List PyStr) : List (PyStr × Nat) :=
  ws.foldl (fun acc w => bumpCount w acc) []

/-- Stable insertion for a descending-by-count sort: an element goes after
every earlier element with a greater-or-equal count, so ties keep the
first-seen order. -/
def insertByCountDesc (p : PyStr × Nat) : List (PyStr × Nat) → List (PyStr × Nat)
  | [] => [p]
  | q :: qs => if q.2 < p.2 then p :: q :: qs else q :: insertByCountDesc p qs

/-- `Counter(ws).most_common(n)`: counts sorted by frequency descending,
ties in first-seen order (the documented behaviour of `most_common`),
truncated to `n`. -/
def mostCommon (n : Nat) (ws : List PyStr) : List (PyStr × Nat) :=
  (((countsList ws).foldl (fun acc p => insertByCountDesc p acc) []).take n)

/-- Helper for `pyTitle`: the flag records whether the previous character
was alphabetic (i.e. whether we are inside a word). -/
def pyTitleAux : Bool → PyStr → PyStr
  | _, [] => []
  | prevAlpha, c :: cs =>
    (if isAlphaC c then (if prevAlpha then toLowerC c else toUpperC c) else c) ::
      pyTitleAux (isAlphaC c) cs

/-- `str.title()` (ASCII part): uppercase each letter that starts a word,
lowercase the rest. -/
def pyTitle (s : PyStr) : PyStr := pyTitleAux false s

/-- The fixed stop-word set of `extract_meaningful_themes`. -/
def baseStopWords : List PyStr :=
  [pystr "the", pystr "and", pystr "for", pystr "with", pystr "that", pystr "this",
   pystr "from", pystr "have", pystr "has", pystr "been", pystr "are", pystr "were",
   pystr "their"]

/-- `extract_meaningful_themes(texts, topic)` from agents/analysis_agent.py. -/
def extract_meaningful_themes (texts : List PyStr) (topic : PyStr) : List PyStr :=
  let full_text := pyLower (pyJoin (pystr " ") texts)
  let stop_words := baseStopWords ++ pySplitWs (pyLower topic)
  let words := alphaTokens 5 full_text
  let filtered_words := words.filter (fun w => ¬ stop_words.contains w)
  let common_words := mostCommon 8 filtered_words
  let themes := (common_words.filter (fun p => 1 < p.2)).map (fun p => pyTitle p.1)
  themes.take 5

/-- The texts fed to the analyzer:
`[d.get("raw_content", "") for d in docs if d.get("raw_content")]`. -/
def allTexts (docs : List Document) : List PyStr :=
  (docs.map (fun d => d.raw_content)).filter (fun t => t ≠ [])

/-- The `analysis_result` dict that `analyze_agent` builds from the
documents and the topic. -/
def analysisOf (docs : List Document) (topic : PyStr) : Analysis :=
  let all_texts := allTexts docs
  if all_texts = [] then
    ⟨[], [], some (pystr "No content to analyze"), 0, none⟩
  else
    let themes := extract_meaningful_themes all_texts topic
    let words := alphaTokens 4 (pyLower (pyJoin (pystr " ") all_texts))
    let keywords := (mostCommon 12 words).map (fun p => p.1)
    ⟨keywords.take 10, themes, none, docs.length,
      some (if 3 < all_texts.length then pystr "good" else pystr "limited")⟩

/-- `analyze_agent(state)` from agents/analysis_agent.py.  Total: the empty
branch of `analysisOf` models the early return for a collection with no
non-empty texts. -/
def analyze_agent (s : ResearchState) : ResearchState :=
  setAnalysis s (analysisOf s.raw_documents s.topic_query)

/-! ## Sufficiency validator (agents/validator_agent.py) -/

/-- `state.get("analysis_result", {}).get("themes", [])`. -/
def themesOfState (s : ResearchState) : List PyStr :=
  match s.analysis_result with
  | some a => a.themes
  | none => []

/-- The `validation_results` dict that `validator_agent` builds from the
document list and the analyzer's themes. -/
def validationOf (docs : List Document) (themes : List PyStr) : Validation :=
  ⟨decide (3 ≤ docs.length),
   decide (0 < themes.length),
   (if 2 < docs.length then pystr "good" else pystr "poor"),
   docs.length,
   themes.length,
   (if docs.length < 2 then
     [pystr "Consider expanding search with more specific terms"] else []) ++
   (if themes = [] then [pystr "Analysis may need deeper processing"] else []) ++
   (if 5 ≤ docs.length then [pystr "Excellent source diversity"] else [])⟩

/-- `validator_agent(state)` from agents/validator_agent.py. -/
def validator_agent (s : ResearchState) : ResearchState :=
  setValidation s (validationOf s.raw_documents (themesOfState s))

/-! ## Search stage (agents/search_agent.py)

The two Tavily tiers are external collaborators; each is modelled as an
oracle of type `Option (List SearchResult)`, where `none` models the client
raising an exception and `some rs` the list of result records it returned.
The random `uuid.uuid4()[:8]` identifiers are modelled by id-supply
functions `ids1 ids2 : Nat → PyStr` giving the id of the i-th result. -/

/-- A provider result record; each field models the corresponding optional
dict key (`none` = key absent). -/
structure SearchResult where
  title : Option PyStr
  url : Option PyStr
  snippet : Option PyStr
  content : Option PyStr
deriving DecidableEq

/-- `result.get("url", "").split("/")[2] if result.get("url") else "unknown"`:
`none` models the `IndexError` raised when a non-empty url has fewer than
three `/`-separated parts (the surrounding `try` then aborts the tier). -/
def sourceDomain (url : Option PyStr) : Option PyStr :=
  match url with
  | none => some (pystr "unknown")
  | some u =>
    if u = [] then some (pystr "unknown")
    else (pySplitCh 47 u).get? 2

/-- One tier-1 document (`_tavily_search`, direct-Tavily branch):
snippet is the content truncated to 200 characters. -/
def docOfResult1 (query ident : PyStr) (r : SearchResult) : Option Document :=
  match sourceDomain r.url with
  | none => none
  | some dom =>
    some ⟨ident, r.title.getD query, r.url.getD [],
      (r.content.getD []).take 200, r.content.getD [], dom⟩

/-- One tier-2 document (`_tavily_search`, LangChain branch): the provider
snippet is used as-is when present, otherwise the content truncated to 200
characters; raw content falls back to the snippet. -/
def docOfResult2 (query ident : PyStr) (r : SearchResult) : Option Document :=
  match sourceDomain r.url with
  | none => none
  | some dom =>
    some ⟨ident, r.title.getD query, r.url.getD [],
      (match r.snippet with
       | some sn => sn
       | none => (r.content.getD []).take 200),
      r.content.getD (r.snippet.getD []), dom⟩

/-- Build the documents of one tier from index `i` on; `none` when building
any of them raises (the exception aborts the whole tier). -/
def tierDocs (mk : Nat → SearchResult → Option Document) :
    Nat → List SearchResult → Option (List Document)
  | _, [] => some []
  | i, r :: rs =>
    match mk i r, tierDocs mk (i + 1) rs with
    | some d, some ds => some (d :: ds)
    | _, _ => none

/-- The synthetic placeholder document of the final fallback tier
(`_tavily_search`, "minimal simulated data"). -/
def placeholderDoc (query : PyStr) : Document :=
  ⟨pystr "sim_1",
   pystr "Research on " ++ query,
   pystr "https://example.com/simulated",
   pystr "Simulated content for " ++ query ++ pystr ". Please check your Tavily API key.",
   pystr "This is simulated content for the topic: " ++ query ++
     pystr ". In a real deployment, this would contain actual research content from web sources.",
   pystr "simulated.com"⟩

/-- `_tavily_search(query)` from agents/search_agent.py: tier 1 (direct
Tavily), then tier 2 (LangChain Tavily), then the synthetic placeholder; a
tier is skipped when its client raises, building one of its documents
raises, or it yields no documents.  (Tier-2 entries that are not dicts are
skipped by the source; the model takes every entry to be a dict.) -/
def tavily_search (query : PyStr) (o1 o2 : Option (List SearchResult))
    (ids1 ids2 : Nat → PyStr) : List Document :=
  let tier2 : List Document :=
    match o2 with
    | none => [placeholderDoc query]
    | some rs =>
      match tierDocs (fun i r => docOfResult2 query (ids2 i) r) 0 rs with
      | none => [placeholderDoc query]
      | some ds => if ds = [] then [placeholderDoc query] else ds
  match o1 with
  | none => tier2
  | some rs =>
    match tierDocs (fun i r => docOfResult1 query (ids1 i) r) 0 rs with
    | none => tier2
    | some ds => if ds = [] then tier2 else ds

/-- `search_agent(state)` from agents/search_agent.py. -/
def search_agent (o1 o2 : Option (List SearchResult)) (ids1 ids2 : Nat → PyStr)
    (s : ResearchState) : ResearchState :=
  let query := pyStrip s.topic_query
  if query = [] then setRawDocuments s []
  else setRawDocuments s (tavily_search query o1 o2 ids1 ids2)

/-! ## Summarizer stage (agents/summarizer_agent.py)

The Gemini LLM is an external collaborator, modelled as an oracle
`llm : Option PyStr` (`none` = the call raises, `some r` = the response
text).  The prompt construction feeds only the LLM and does not influence
any claim, so it is not reproduced; on failure the stage substitutes the
explanatory placeholder below. -/

/-- `summarizer_agent(state)`: the summary is the stripped LLM response, or
the fallback string when the LLM raises. -/
def summarizer_agent (llm : Option PyStr) (s : ResearchState) : ResearchState :=
  match llm with
  | some response => setSummary s (pyStrip response)
  | none =>
    setSummary s
      (pystr "Topic: " ++ s.topic_query ++
       pystr "\nError generating structured summary. Please check your API configuration or input.")

/-! ## Report text structurer (utils/pdf_utils.py)

The regular-expression substitutions of the source are modelled by direct
scanners with the same leftmost, (non-)greedy semantics; the inputs they
run on in this file are single lines (the source splits on newlines before
cleaning), so `.` never has to skip a newline. -/

/-- Helper for `stripHash`: after a `#` was consumed, the flag says whether
we are still inside the greedy `\s*` tail of the current match. -/
def stripHashAux : Bool → PyStr → PyStr
  | _, [] => []
  | skipWs, c :: cs =>
    if c = 35 then stripHashAux true cs
    else if skipWs && isWs c then stripHashAux true cs
    else c :: stripHashAux false cs

/-- `re.sub(r'#+\s*', '', s)`: delete every run of `#` together with the
whitespace that follows it. -/
def stripHash (s : PyStr) : PyStr := stripHashAux false s

/-- Split a string at its first occurrence of `**`, returning the parts
before and after; `none` when there is none. -/
def findStars2 : PyStr → Option (PyStr × PyStr)
  | [] => none
  | [_] => none
  | c :: d :: rest =>
    if c = 42 ∧ d = 42 then some ([], rest)
    else
      match findStars2 (d :: rest) with
      | none => none
      | some (pre, post) => some (c :: pre, post)

/-- Split a string at its first `*`, returning the parts before and after. -/
def findStar1 : PyStr → Option (PyStr × PyStr)
  | [] => none
  | c :: cs =>
    if c = 42 then some ([], cs)
    else
      match findStar1 cs with
      | none => none
      | some (pre, post) => some (c :: pre, post)

/-- Fuel-bounded body of `stripBold`; every recursive call strictly
shortens the string, so fuel `s.length` (as passed by `stripBold`) never
runs out. -/
def stripBoldAux : Nat → PyStr → PyStr
  | 0, s => s
  | fuel + 1, s =>
    match s with
    | [] => []
    | [c] => [c]
    | c :: d :: rest =>
      if c = 42 ∧ d = 42 then
        match findStars2 rest with
        | some (inner, rest2) => inner ++ stripBoldAux fuel rest2
        | none => c :: d :: stripBoldAux fuel rest
      else c :: stripBoldAux fuel (d :: rest)

/-- `re.sub(r'\*\*(.*?)\*\*', r'\1', s)`: delete matching pairs of `**`,
keeping the (non-greedy) text between them; replacement text is not
rescanned, scanning resumes after the closing `**`. -/
def stripBold (s : PyStr) : PyStr := stripBoldAux s.length s

/-- Fuel-bounded body of `stripItalic`; every recursive call strictly
shortens the string, so fuel `s.length` never runs out. -/
def stripItalicAux : Nat → PyStr → PyStr
  | 0, s => s
  | fuel + 1, s =>
    match s with
    | [] => []
    | c :: rest =>
      if c = 42 then
        match findStar1 rest with
        | some (inner, rest2) => inner ++ stripItalicAux fuel rest2
        | none => c :: stripItalicAux fuel rest
      else c :: stripItalicAux fuel rest

/-- `re.sub(r'\*(.*?)\*', r'\1', s)`: delete matching pairs of single `*`,
keeping the text between them. -/
def stripItalic (s : PyStr) : PyStr := stripItalicAux s.length s

/-- The line cleanup shared by `format_bullet_points`,
`extract_bullet_content` and the snippet cleanup of `generate_pdf`: remove
bold markers, then italic markers, then header markers. -/
def mdClean (s : PyStr) : PyStr := stripHash (stripItalic (stripBold s))

/-- Helper for `collapseWs`: the flag says whether the previous character
was whitespace (so the current run was already replaced). -/
def collapseWsAux : Bool → PyStr → PyStr
  | _, [] => []
  | inWs, c :: cs =>
    if isWs c then
      if inWs then collapseWsAux true cs else 32 :: collapseWsAux true cs
    else c :: collapseWsAux false cs

/-- `re.sub(r'\s+', ' ', s)`: replace each whitespace run by one space. -/
def collapseWs (s : PyStr) : PyStr := collapseWsAux false s

/-- `clean_line.startswith(('•', '*', '-'))`; `•` is code point 8226. -/
def startsBulletChar (s : PyStr) : Bool :=
  match s with
  | [] => false
  | c :: _ => c = 8226 || c = 42 || c = 45

/-- `re.match(r'^\d+\.', s)`: one or more digits then a period. -/
def matchNumDot (s : PyStr) : Bool :=
  decide (s.takeWhile isDigitC ≠ []) &&
  (match s.dropWhile isDigitC with
   | 46 :: _ => true
   | _ => false)

/-- The bullet-line test of `format_bullet_points` and
`extract_bullet_content`: a leading bullet character, or digits followed by
a period (the source's third test, `re.match(r'^\*\s', ...)`, is subsumed
by `startswith('*')`). -/
def isBulletLine (s : PyStr) : Bool := startsBulletChar s || matchNumDot s

/-- `re.sub(r'^[•*\-]\s*', '', s)`: drop one leading bullet character and
the whitespace after it, when present. -/
def stripBulletChar : PyStr → PyStr
  | [] => []
  | c :: cs =>
    if c = 8226 || c = 42 || c = 45 then cs.dropWhile isWs else c :: cs

/-- `re.sub(r'^\d+\.\s*', '', s)`: drop a leading digit run, period and
following whitespace, when present. -/
def stripNumDot (s : PyStr) : PyStr :=
  if s.takeWhile isDigitC = [] then s
  else
    match s.dropWhile isDigitC with
    | 46 :: rest => rest.dropWhile isWs
    | _ => s

/-- `re.sub(r'^\*\s', '', s)`: drop a leading star followed by exactly one
whitespace character, when present. -/
def stripStarWs : PyStr → PyStr
  | 42 :: c :: rest => if isWs c then rest else 42 :: c :: rest
  | s => s

/-- The three marker-stripping substitutions applied, in source order, to a
recognised bullet line. -/
def stripBulletMarkers (s : PyStr) : PyStr :=
  stripStarWs (stripNumDot (stripBulletChar s))

/-- The per-line body of `extract_bullet_content`: the bullet text this line
contributes (at most one). -/
def extractBulletLine (line : PyStr) : List PyStr :=
  let clean_line := mdClean (pyStrip line)
  if isBulletLine clean_line then
    let final_line := stripBulletMarkers clean_line
    if pyStrip final_line = [] then [] else [pyStrip final_line]
  else []

/-- `extract_bullet_content(text)` from utils/pdf_utils.py. -/
def extract_bullet_content (text : PyStr) : List PyStr :=
  ((pySplitCh 10 text).map extractBulletLine).flatten

/-- The per-line body of `format_bullet_points`: `(true, t)` is a bullet
paragraph with text `t` (rendered as `• t`), `(false, t)` a plain
paragraph. -/
def formatLine (line : PyStr) : List (Bool × PyStr) :=
  let ls := pyStrip line
  if ls = [] then []
  else
    let clean_line := mdClean ls
    if pyStrip clean_line = [] then []
    else if isBulletLine clean_line then
      let final_line := stripBulletMarkers clean_line
      if pyStrip final_line = [] then [] else [(true, pyStrip final_line)]
    else [(false, pyStrip clean_line)]

/-- `format_bullet_points(text)` from utils/pdf_utils.py, as the list of
(is-bullet, text) paragraphs it produces. -/
def format_bullet_points (text : PyStr) : List (Bool × PyStr) :=
  ((pySplitCh 10 text).map formatLine).flatten

/-- The fixed header keyword vocabulary of `clean_summary_text`. -/
def headerKeywords : List PyStr :=
  [pystr "introduction", pystr "methodology", pystr "approach", pystr "key insights",
   pystr "challenges", pystr "research gaps", pystr "real-world applications",
   pystr "future scope", pystr "opportunities", pystr "conclusion", pystr "references",
   pystr "summary", pystr "analysis", pystr "results", pystr "discussion",
   pystr "applications", pystr "research summary"]

/-- `re.match(r'^\d+\.\s+[A-Z]', s)`: digits, period, at least one
whitespace, then an uppercase letter. -/
def matchNumDotCapWs (s : PyStr) : Bool :=
  decide (s.takeWhile isDigitC ≠ []) &&
  (match s.dropWhile isDigitC with
   | 46 :: rest =>
     decide (rest.takeWhile isWs ≠ []) &&
     (match rest.dropWhile isWs with
      | c :: _ => isUpperC c
      | [] => false)
   | _ => false)

/-- One word of the Title-Case header pattern: `[A-Z][a-z]+`. -/
def isTitleWord (w : PyStr) : Bool :=
  match w with
  | [] => false
  | c :: cs => isUpperC c && decide (cs ≠ []) && cs.all isLowerC

/-- `re.match(r'^[A-Z][a-z]+(?:\s+[A-Z][a-z]+)*\s*$', s)` on an already
stripped line: every whitespace-separated word is `[A-Z][a-z]+` and there
is at least one. -/
def matchTitleCase (s : PyStr) : Bool :=
  decide (pySplitWs s ≠ []) && (pySplitWs s).all isTitleWord

/-- The header classification of `clean_summary_text` (applied to a
stripped, already `#`-free line). -/
def isHeaderLine (line : PyStr) : Bool :=
  matchNumDotCapWs line || matchTitleCase line ||
  headerKeywords.any (fun k => isSubstr k (pyLower line))

/-- A section produced by `clean_summary_text`; `number = 0` models the
dict's missing `number` key (the source reads it back with
`section.get("number", 0)`).  The source also stores an `original_title`
key that always equals `title` and is never read; it is not modelled. -/
structure Section where
  title : PyStr
  content : List PyStr
  number : Nat
deriving DecidableEq

/-- The loop state of `clean_summary_text`: finished sections, the section
counter, and the open current section. -/
structure CSAcc where
  sections : List Section
  counter : Nat
  cur : Section
deriving DecidableEq

/-- One iteration of the line loop of `clean_summary_text`. -/
def csStep (acc : CSAcc) (raw : PyStr) : CSAcc :=
  let line := pyStrip raw
  if line = [] then acc
  else if isHeaderLine line && decide (line.length < 100) then
    let secs :=
      if acc.cur.title ≠ [] ∨ acc.cur.content ≠ [] then acc.sections ++ [acc.cur]
      else acc.sections
    ⟨secs, acc.counter + 1, ⟨line, [], acc.counter + 1⟩⟩
  else ⟨acc.sections, acc.counter, ⟨acc.cur.title, acc.cur.content ++ [line], acc.cur.number⟩⟩

/-- `clean_summary_text(summary)` from utils/pdf_utils.py: strip all header
markers, split into lines, group stripped non-blank lines into numbered
sections at header lines. -/
def clean_summary_text (summary : PyStr) : List Section :=
  let cleaned := stripHash summary
  let acc := (pySplitCh 10 cleaned).foldl csStep ⟨[], 0, ⟨[], [], 0⟩⟩
  acc.sections ++
    (if acc.cur.title ≠ [] ∨ acc.cur.content ≠ [] then [acc.cur] else [])

/-- The title cleanup of the section-rendering loop of `generate_pdf`:
strip a leading number, collapse internal whitespace, strip. -/
def cleanTitle (t : PyStr) : PyStr := pyStrip (collapseWs (stripNumDot t))

/-- The rendering of one section inside `generate_pdf` (lines 294-338):
an optional heading plus either bullet items or (bullet/plain) paragraphs
from the space-joined content. -/
structure RenderedSection where
  heading : Option PyStr
  bullets : List PyStr
  paragraphs : List (Bool × PyStr)
deriving DecidableEq

/-- Render one section of `clean_summary_text` output as `generate_pdf`
does: `none` when the section is dropped entirely (the `continue`), else
its heading and content.  The content lines are joined with single spaces
before bullet extraction. -/
def renderSection (sec : Section) : Option RenderedSection :=
  let title := pyStrip sec.title
  let pieces : List PyStr × List (Bool × PyStr) :=
    if sec.content = [] then ([], [])
    else
      let combined := pyJoin (pystr " ") sec.content
      let bullets := extract_bullet_content combined
      if bullets ≠ [] then (bullets, [])
      else ([], format_bullet_points combined)
  if title ≠ [] then
    let clean_title := cleanTitle title
    if isSubstr (pystr "research summary") (pyLower clean_title) &&
        decide (sec.number = 1) then
      none
    else
      let numbered_title :=
        if 0 < sec.number then natToStr sec.number ++ pystr ". " ++ clean_title
        else clean_title
      some ⟨some numbered_title, pieces.1, pieces.2⟩
  else some ⟨none, pieces.1, pieces.2⟩

/-! ## PDF generation and the format stage
(utils/pdf_utils.py `generate_pdf` / `generate_simple_pdf`,
agents/formatter_agent.py)

The reportlab layout engine is the external render collaborator; it is
modelled as an oracle `build : List StoryItem → Option Unit` (`none` = the
engine raises while laying out that story).  `datetime.now()` is modelled
by a `now : PyStr` parameter used wherever the source formats the current
time.  Layout-only details (font sizes, colours, the exact magnitude of
each `Spacer`) carry no text and are compressed to a single `spacer`
constructor; the whitespace of the triple-quoted source f-string for
reference entries is likewise not reproduced. -/

/-- One flowable appended to the reportlab story, keeping its text and
which style family it uses. -/
inductive StoryItem where
  | text : PyStr → StoryItem
  | heading : PyStr → StoryItem
  | bullet : PyStr → StoryItem
  | spacer : StoryItem
  | pageBreak : StoryItem
deriving DecidableEq

/-- The story items of one summary section (the per-section body of the
rendering loop of `generate_pdf`): nothing when the section is dropped,
else heading (when titled) plus bullet items or paragraphs. -/
def sectionStory (sec : Section) : List StoryItem :=
  match renderSection sec with
  | none => []
  | some r =>
    (match r.heading with
     | some h => [StoryItem.heading h, StoryItem.spacer]
     | none => []) ++
    r.bullets.map (fun b => StoryItem.bullet (pystr "• " ++ b)) ++
    r.paragraphs.map (fun p =>
      if p.1 then StoryItem.bullet (pystr "• " ++ p.2) else StoryItem.text p.2) ++
    [StoryItem.spacer]

/-- The cover page of `generate_pdf`. -/
def coverStory (now topic : PyStr) : List StoryItem :=
  [StoryItem.heading (pystr "Research Report"), StoryItem.spacer,
   StoryItem.heading topic, StoryItem.spacer,
   StoryItem.text (pystr "Generated on: " ++ now),
   StoryItem.text (pystr "Smart Research Assistant - LangGraph Multi-Agent System"),
   StoryItem.pageBreak]

/-- The quality-assessment page of `generate_pdf`; an absent (empty, hence
falsy) validation dict skips the metrics block. -/
def validationStory (v : Option Validation) : List StoryItem :=
  [StoryItem.heading (pystr "Research Quality Assessment"), StoryItem.spacer] ++
  (match v with
   | none => []
   | some val =>
     [StoryItem.text (pystr "<b>Source Quality:</b> " ++ val.document_quality),
      StoryItem.text (pystr "<b>Sources Analyzed:</b> " ++ natToStr val.source_count),
      StoryItem.text (pystr "<b>Themes Identified:</b> " ++ natToStr val.theme_count),
      StoryItem.text (pystr "<b>Sufficient Sources:</b> " ++
        (if val.has_sufficient_sources then pystr "Yes" else pystr "No")),
      StoryItem.spacer,
      StoryItem.heading (pystr "Recommendations:")] ++
     val.recommendations.map (fun r => StoryItem.bullet (pystr "• " ++ r))) ++
  [StoryItem.pageBreak]

/-- The analysis-results page of `generate_pdf`; an absent analysis dict
skips the block. -/
def analysisStory (a : Option Analysis) : List StoryItem :=
  [StoryItem.heading (pystr "Analysis Results"), StoryItem.spacer] ++
  (match a with
   | none => []
   | some an =>
     [StoryItem.heading (pystr "Key Themes Identified:")] ++
     (an.themes.take 8).map (fun t => StoryItem.bullet (pystr "• " ++ t)) ++
     [StoryItem.spacer, StoryItem.heading (pystr "Top Keywords:"),
      StoryItem.text (pyJoin (pystr ", ") (an.keywords.take 12))]) ++
  [StoryItem.pageBreak]

/-- The executive-summary block of `generate_pdf`: the structured sections
of the summary, rendered in order. -/
def summaryStory (summary : PyStr) : List StoryItem :=
  [StoryItem.heading (pystr "Executive Summary"), StoryItem.spacer] ++
  ((clean_summary_text summary).map sectionStory).flatten

/-- One reference-source entry (1-based index `i`): markdown-cleaned
snippet, truncated to 150 characters with an ellipsis. -/
def referenceEntry (i : Nat) (d : Document) : StoryItem :=
  let clean0 := mdClean d.snippet
  let clean_snippet :=
    if 150 < clean0.length then clean0.take 150 ++ pystr "..." else clean0
  StoryItem.text
    (pystr "<b>Source " ++ natToStr i ++ pystr ": " ++ d.title ++
     pystr "</b><br/><i>Domain: " ++ d.source_domain ++ pystr "</i><br/>" ++
     clean_snippet)

/-- The reference-sources page of `generate_pdf`; skipped when there are no
documents. -/
def referenceStory (docs : List Document) : List StoryItem :=
  if docs = [] then []
  else
    [StoryItem.pageBreak, StoryItem.heading (pystr "Reference Sources"),
     StoryItem.spacer] ++
    (docs.enum.map (fun p => referenceEntry (p.1 + 1) p.2))

/-- The full story handed to the layout engine by `generate_pdf`. -/
def buildStory (now topic summary : PyStr) (a : Option Analysis)
    (docs : List Document) (v : Option Validation) : List StoryItem :=
  coverStory now topic ++ validationStory v ++ analysisStory a ++
    summaryStory summary ++ referenceStory docs

/-- `safe_topic`: keep alphanumerics, spaces, hyphens and underscores, then
strip trailing whitespace. -/
def safeTopic (topic : PyStr) : PyStr :=
  pyRstrip (topic.filter (fun c => isAlnumC c || c = 32 || c = 45 || c = 95))

/-- The output filename of `generate_pdf` (safe topic truncated to 50). -/
def mkFilename (topic now : PyStr) : PyStr :=
  pystr "outputs/Research_Report_" ++ (safeTopic topic).take 50 ++ pystr "_" ++
    now ++ pystr ".pdf"

/-- The output filename of `generate_simple_pdf` (no truncation). -/
def mkSimpleFilename (topic now : PyStr) : PyStr :=
  pystr "outputs/Research_Report_" ++ safeTopic topic ++ pystr "_" ++
    now ++ pystr ".pdf"

/-- Helper for `pySplit2Nl`: split at each (leftmost, non-overlapping)
blank-line separator `\n\n`. -/
def pySplit2NlAux : PyStr → PyStr → List PyStr
  | cur, [] => [cur.reverse]
  | cur, 10 :: 10 :: rest => cur.reverse :: pySplit2NlAux [] rest
  | cur, c :: cs => pySplit2NlAux (c :: cur) cs

/-- Python `str.split('\n\n')`. -/
def pySplit2Nl (s : PyStr) : List PyStr := pySplit2NlAux [] s

/-- The story of `generate_simple_pdf`: title, date, and the markdown-
cleaned summary split into paragraphs at blank lines. -/
def simpleStory (now topic summary : PyStr) : List StoryItem :=
  [StoryItem.heading (pystr "Research Report: " ++ topic), StoryItem.spacer,
   StoryItem.text (pystr "Generated on: " ++ now), StoryItem.spacer,
   StoryItem.heading (pystr "Executive Summary"), StoryItem.spacer] ++
  ((pySplit2Nl (mdClean summary)).filterMap (fun p =>
    if pyStrip p = [] then none else some (StoryItem.text (pyStrip p))))

/-- `generate_simple_pdf(topic, summary)`: the last-resort fallback; when
the layout engine raises even here, it returns the empty path. -/
def generate_simple_pdf (build : List StoryItem → Option Unit)
    (now topic summary : PyStr) : PyStr :=
  match build (simpleStory now topic summary) with
  | some _ => mkSimpleFilename topic now
  | none => []

/-- `generate_pdf(topic, summary, analysis, documents, validation)`: build
the full story; when the layout engine raises, fall back to
`generate_simple_pdf` instead of propagating. -/
def generate_pdf (build : List StoryItem → Option Unit) (now : PyStr)
    (topic summary : PyStr) (a : Option Analysis) (docs : List Document)
    (v : Option Validation) : PyStr :=
  match build (buildStory now topic summary a docs v) with
  | some _ => mkFilename topic now
  | none => generate_simple_pdf build now topic summary

/-- `formatter_agent(state)` from agents/formatter_agent.py, success
branch.  Under this embedding every operation of the stage's try block is
total — `generate_pdf` handles its collaborator's failures itself — so the
stage always takes this branch; the exception branch is `formatterFallback`
below. -/
def formatter_agent (build : List StoryItem → Option Unit) (now : PyStr)
    (s : ResearchState) : ResearchState :=
  let pdf_path :=
    generate_pdf build now s.topic_query s.final_summary s.analysis_result
      s.raw_documents s.validation_result
  setReport s
    ⟨pystr "Research Report: " ++ s.topic_query,
     s.final_summary.length,
     (match s.analysis_result with
      | some a => a.themes
      | none => []),
     some ((match s.analysis_result with
            | some a => a.keywords
            | none => []).take 10),
     s.raw_documents.length,
     (match s.validation_result with
      | some v => v.document_quality
      | none => pystr "unknown"),
     some (if (match s.validation_result with
               | some v => v.has_sufficient_sources
               | none => false) then pystr "High" else pystr "Medium"),
     none⟩
    pdf_path

/-- The degraded report of formatter_agent's exception handler (lines
47-57), with `emsg` the stringified exception: an `error` marker, the
`error` validation status, and an empty pdf path.  Reachable only if the
stage's own try block raises, which no operation modelled here does. -/
def formatterFallback (emsg : PyStr) (s : ResearchState) : ResearchState :=
  setReport s
    ⟨pystr "Research Report: " ++ s.topic_query,
     s.final_summary.length,
     (match s.analysis_result with
      | some a => a.themes
      | none => []),
     none,
     s.raw_documents.length,
     pystr "error",
     none,
     some (pystr "PDF generation failed: " ++ emsg)⟩
    []

/-! ## Workflow orchestrator (main.py)

The LangGraph graph is linear: search -> analyze -> validate -> summarize
-> format -> END, each stage's returned dict merged into the running state.
The composition below is that graph; it is a total function, so every run
reaches the Terminal (END) state with the final merged state. -/

/-- One full workflow run (`run_research_workflow(topic)`), parameterised
by the oracles of all external collaborators. -/
def runWorkflow (o1 o2 : Option (List SearchResult)) (ids1 ids2 : Nat → PyStr)
    (llm : Option PyStr) (build : List StoryItem → Option Unit) (now : PyStr)
    (topic : PyStr) : ResearchState :=
  formatter_agent build now
    (summarizer_agent llm
      (validator_agent
        (analyze_agent
          (search_agent o1 o2 ids1 ids2 (initState topic)))))

/-! ## Sample inputs used by concrete theorems -/

/-- A one-document collection whose only raw content is the synthetic
placeholder for the topic `ai`. -/
def exampleDocs : List Document := [placeholderDoc (pystr "ai")]

/-- The structurer round-trip input fixed by the specification. -/
def c5input : PyStr :=
  pystr "# Introduction\nThis is text.\n# Conclusion\n- point one\n- point two"

end SRA

namespace SRA

/-! ## Theorems for the claims -/

/-- C1: For every workflow state, validator_agent's ValidationResult
satisfies: has_sufficient_sources is true iff the document count is >= 3,
document_quality is "good" iff the document count is > 2 (else "poor"),
and has_key_themes is true iff the theme count is > 0; consequently
has_sufficient_sources is true iff document_quality = "good", for every
non-negative document count. -/
theorem C1_validator_thresholds (s : ResearchState) :
    (validator_agent s).validation_result =
      some (validationOf s.raw_documents (themesOfState s)) ∧
    ((validationOf s.raw_documents (themesOfState s)).has_sufficient_sources = true ↔
      3 ≤ s.raw_documents.length) ∧
    ((validationOf s.raw_documents (themesOfState s)).document_quality = pystr "good" ↔
      2 < s.raw_documents.length) ∧
    ((validationOf s.raw_documents (themesOfState s)).document_quality = pystr "good" ∨
     (validationOf s.raw_documents (themesOfState s)).document_quality = pystr "poor") ∧
    ((validationOf s.raw_documents (themesOfState s)).has_key_themes = true ↔
      0 < (validationOf s.raw_documents (themesOfState s)).theme_count) ∧
    ((validationOf s.raw_documents (themesOfState s)).has_sufficient_sources = true ↔
      (validationOf s.raw_documents (themesOfState s)).document_quality = pystr "good") := by
  have hgp : pystr "poor" ≠ pystr "good" := by decide
  refine ⟨rfl, ?_, ?_, ?_, ?_, ?_⟩
  · simp [validationOf]
  · by_cases h : 2 < s.raw_documents.length <;> simp [validationOf, h, hgp]
  · by_cases h : 2 < s.raw_documents.length <;> simp [validationOf, h]
  · simp [validationOf]
  · by_cases h : 2 < s.raw_documents.length <;> simp [validationOf, h, hgp] <;> omega

/-- C7: For every document count d and theme count t, the validator's
recommendations list equals exactly the subsequence, in this fixed order,
of [expand-search message, deeper-processing message, excellent-diversity
message] whose conditions (d < 2, t == 0, d >= 5 respectively) hold; in
particular for 1 document and 0 themes, both the expand-search and
deeper-processing messages appear, in that order. -/
theorem C7_recommendation_order (s : ResearchState) :
    ((validationOf s.raw_documents (themesOfState s)).recommendations =
      ([(decide (s.raw_documents.length < 2),
         pystr "Consider expanding search with more specific terms"),
        (decide ((themesOfState s).length = 0),
         pystr "Analysis may need deeper processing"),
        (decide (5 ≤ s.raw_documents.length),
         pystr "Excellent source diversity")].filter
          (fun p => p.1)).map (fun p => p.2)) ∧
    (validationOf exampleDocs []).recommendations =
      [pystr "Consider expanding search with more specific terms",
       pystr "Analysis may need deeper processing"] := by
  constructor
  · by_cases h1 : s.raw_documents.length < 2 <;>
      by_cases h2 : themesOfState s = [] <;>
        by_cases h3 : 5 ≤ s.raw_documents.length <;>
          simp [validationOf, h1, h2, h3, List.length_eq_zero]
  · decide

/-! ### Supporting lemmas for the analyzer claims -/

theorem mem_bumpCount (k : PyStr) :
    ∀ (l : List (PyStr × Nat)) (p : PyStr × Nat), p ∈ bumpCount k l → p.1 = k ∨ p ∈ l := by
  intro l
  induction l with
  | nil =>
    intro p hp
    simp [bumpCount] at hp
    left
    simp [hp]
  | cons q rest ih =>
    intro p hp
    obtain ⟨k', n⟩ := q
    by_cases hk : k' = k
    · simp only [bumpCount, if_pos hk] at hp
      rcases List.mem_cons.mp hp with h | h
      · left; simp [h, hk]
      · right; exact List.mem_cons_of_mem _ h
    · simp only [bumpCount, if_neg hk] at hp
      rcases List.mem_cons.mp hp with h | h
      · right; simp [h]
      · rcases ih p h with h' | h'
        · left; exact h'
        · right; exact List.mem_cons_of_mem _ h'

theorem mem_countsList_foldl :
    ∀ (ws : List PyStr) (acc : List (PyStr × Nat)) (p : PyStr × Nat),
      p ∈ ws.foldl (fun a w => bumpCount w a) acc → p ∈ acc ∨ p.1 ∈ ws := by
  intro ws
  induction ws with
  | nil => intro acc p hp; exact Or.inl hp
  | cons w rest ih =>
    intro acc p hp
    simp only [List.foldl_cons] at hp
    rcases ih (bumpCount w acc) p hp with h | h
    · rcases mem_bumpCount w acc p h with h' | h'
      · right; simp [h']
      · exact Or.inl h'
    · right; exact List.mem_cons_of_mem _ h

theorem mem_countsList (ws : List PyStr) (p : PyStr × Nat) :
    p ∈ countsList ws → p.1 ∈ ws := by
  intro hp
  rcases mem_countsList_foldl ws [] p hp with h | h
  · simp at h
  · exact h

theorem mem_insertByCountDesc (q : PyStr × Nat) :
    ∀ (l : List (PyStr × Nat)) (p : PyStr × Nat),
      p ∈ insertByCountDesc q l → p = q ∨ p ∈ l := by
  intro l
  induction l with
  | nil => intro p hp; simp [insertByCountDesc] at hp; exact Or.inl hp
  | cons r rest ih =>
    intro p hp
    by_cases hlt : r.2 < q.2
    · simp only [insertByCountDesc, if_pos hlt] at hp
      rcases List.mem_cons.mp hp with h | h
      · exact Or.inl h
      · exact Or.inr h
    · simp only [insertByCountDesc, if_neg hlt] at hp
      rcases List.mem_cons.mp hp with h | h
      · right; simp [h]
      · rcases ih p h with h' | h'
        · exact Or.inl h'
        · right; exact List.mem_cons_of_mem _ h'

theorem mem_sortDesc_foldl :
    ∀ (pairs acc : List (PyStr × Nat)) (p : PyStr × Nat),
      p ∈ pairs.foldl (fun a q => insertByCountDesc q a) acc → p ∈ acc ∨ p ∈ pairs := by
  intro pairs
  induction pairs with
  | nil => intro acc p hp; exact Or.inl hp
  | cons q rest ih =>
    intro acc p hp
    simp only [List.foldl_cons] at hp
    rcases ih (insertByCountDesc q acc) p hp with h | h
    · rcases mem_insertByCountDesc q acc p h with h' | h'
      · right; simp [h']
      · exact Or.inl h'
    · right; exact List.mem_cons_of_mem _ h

theorem mem_mostCommon (n : Nat) (ws : List PyStr) (p : PyStr × Nat) :
    p ∈ mostCommon n ws → p.1 ∈ ws := by
  intro hp
  have h1 : p ∈ (countsList ws).foldl (fun a q => insertByCountDesc q a) [] :=
    List.take_subset _ _ hp
  rcases mem_sortDesc_foldl (countsList ws) [] p h1 with h | h
  · simp at h
  · exact mem_countsList ws p h

theorem wordRunsAux_subset :
    ∀ (s cur w : PyStr), w ∈ wordRunsAux cur s → ∀ c, c ∈ w → c ∈ cur ∨ c ∈ s := by
  intro s
  induction s with
  | nil =>
    intro cur w hw c hc
    by_cases hcur : cur = []
    · simp [wordRunsAux, hcur] at hw
    · simp only [wordRunsAux, if_neg hcur] at hw
      simp only [List.mem_singleton] at hw
      subst hw
      exact Or.inl (List.mem_reverse.mp hc)
  | cons d cs ih =>
    intro cur w hw c hc
    by_cases hword : isWordC d = true
    · simp only [wordRunsAux, hword, if_true] at hw
      rcases ih (d :: cur) w hw c hc with h | h
      · rcases List.mem_cons.mp h with h' | h'
        · right; simp [h']
        · exact Or.inl h'
      · right; exact List.mem_cons_of_mem _ h
    · by_cases hcur : cur = []
      · simp only [wordRunsAux, hword, hcur, if_pos rfl] at hw
        simp only [Bool.false_eq_true, if_false] at hw
        rcases ih [] w hw c hc with h | h
        · simp at h
        · right; exact List.mem_cons_of_mem _ h
      · simp only [wordRunsAux, hword, Bool.false_eq_true, if_false, if_neg hcur] at hw
        rcases List.mem_cons.mp hw with h | h
        · subst h
          exact Or.inl (List.mem_reverse.mp hc)
        · rcases ih [] w h c hc with h' | h'
          · simp at h'
          · right; exact List.mem_cons_of_mem _ h'

theorem mem_alphaTokens (n : Nat) (s w : PyStr) (hw : w ∈ alphaTokens n s) :
    w.all isAlphaC = true ∧ ∀ c ∈ w, c ∈ s := by
  unfold alphaTokens at hw
  have h := List.mem_filter.mp hw
  refine ⟨(Bool.and_eq_true _ _ |>.mp h.2).1, ?_⟩
  intro c hc
  rcases wordRunsAux_subset s [] w h.1 c hc with h' | h'
  · simp at h'
  · exact h'

theorem not_upper_of_mem_pyLower (s : PyStr) (c : Nat) (hc : c ∈ pyLower s) :
    isUpperC c = false := by
  unfold pyLower at hc
  obtain ⟨d, _, hd⟩ := List.mem_map.mp hc
  subst hd
  unfold toLowerC isUpperC
  by_cases h : 65 ≤ d ∧ d ≤ 90
  · simp [h]
    omega
  · simp [h]
    omega

theorem isLowerC_of_alpha_not_upper (c : Nat) (ha : isAlphaC c = true)
    (hu : isUpperC c = false) : isLowerC c = true := by
  unfold isAlphaC at ha
  rcases Bool.or_eq_true _ _ |>.mp ha with h | h
  · rw [h] at hu; cases hu
  · exact h

theorem toLowerC_of_lower (c : Nat) (h : isLowerC c = true) : toLowerC c = c := by
  unfold isLowerC at h
  rw [Bool.and_eq_true, decide_eq_true_eq, decide_eq_true_eq] at h
  unfold toLowerC
  rw [if_neg]
  omega

theorem toLowerC_toUpperC (c : Nat) (h : isLowerC c = true) :
    toLowerC (toUpperC c) = c := by
  unfold isLowerC at h
  rw [Bool.and_eq_true, decide_eq_true_eq, decide_eq_true_eq] at h
  have h1 : toUpperC c = c - 32 := by
    unfold toUpperC
    rw [if_pos (by omega)]
  rw [h1]
  unfold toLowerC
  rw [if_pos (by omega)]
  omega

theorem pyLower_eq_self_of_lower :
    ∀ (s : PyStr), s.all isLowerC = true → pyLower s = s := by
  intro s
  induction s with
  | nil => intro _; rfl
  | cons c cs ih =>
    intro h
    rw [List.all_cons, Bool.and_eq_true] at h
    unfold pyLower at ih ⊢
    simp only [List.map_cons]
    rw [toLowerC_of_lower c h.1, ih h.2]

theorem pyTitleAux_true_of_lower :
    ∀ (s : PyStr), s.all isLowerC = true → pyTitleAux true s = s := by
  intro s
  induction s with
  | nil => intro _; rfl
  | cons c cs ih =>
    intro h
    rw [List.all_cons, Bool.and_eq_true] at h
    have ha : isAlphaC c = true := by
      unfold isAlphaC
      rw [h.1]
      simp
    unfold pyTitleAux
    rw [if_pos ha, if_pos rfl, toLowerC_of_lower c h.1, ha, ih h.2]

theorem pyLower_pyTitle_of_lower (s : PyStr) (h : s.all isLowerC = true) :
    pyLower (pyTitle s) = s := by
  cases s with
  | nil => rfl
  | cons c cs =>
    rw [List.all_cons, Bool.and_eq_true] at h
    have ha : isAlphaC c = true := by
      unfold isAlphaC
      rw [h.1]
      simp
    unfold pyTitle pyTitleAux
    rw [if_pos ha, if_neg (by simp), ha, pyTitleAux_true_of_lower cs h.2]
    unfold pyLower
    simp only [List.map_cons]
    rw [toLowerC_toUpperC c h.1]
    show c :: pyLower cs = c :: cs
    rw [pyLower_eq_self_of_lower cs h.2]

theorem isWs_toLowerC (c : Nat) : isWs (toLowerC c) = isWs c := by
  by_cases h : 65 ≤ c ∧ c ≤ 90
  · have h1 : toLowerC c = c + 32 := by
      unfold toLowerC
      rw [if_pos h]
    have h2 : isWs (c + 32) = false := by
      unfold isWs
      simp only [Bool.or_eq_false_iff, decide_eq_false_iff_not]
      omega
    have h3 : isWs c = false := by
      unfold isWs
      simp only [Bool.or_eq_false_iff, decide_eq_false_iff_not]
      omega
    rw [h1, h2, h3]
  · have h1 : toLowerC c = c := by
      unfold toLowerC
      rw [if_neg h]
    rw [h1]

theorem pyLower_nil_iff (s : PyStr) : pyLower s = [] ↔ s = [] := by
  unfold pyLower
  exact List.map_eq_nil_iff

theorem pySplitWsAux_pyLower :
    ∀ (s cur : PyStr),
      pySplitWsAux (pyLower cur) (pyLower s) = (pySplitWsAux cur s).map pyLower := by
  intro s
  induction s with
  | nil =>
    intro cur
    by_cases hcur : cur = []
    · subst hcur; rfl
    · have hne : pyLower cur ≠ [] := fun h => hcur ((pyLower_nil_iff cur).mp h)
      show pySplitWsAux (pyLower cur) [] = _
      unfold pySplitWsAux
      rw [if_neg hne, if_neg hcur]
      simp [pyLower, List.map_reverse]
  | cons c cs ih =>
    intro cur
    show pySplitWsAux (pyLower cur) (toLowerC c :: pyLower cs) = _
    by_cases hws : isWs c = true
    · have hws' : isWs (toLowerC c) = true := by rw [isWs_toLowerC]; exact hws
      by_cases hcur : cur = []
      · subst hcur
        unfold pySplitWsAux
        rw [if_pos hws', if_pos hws]
        have h0 : pyLower ([] : PyStr) = [] := rfl
        rw [h0, if_pos rfl, if_pos rfl]
        exact ih []
      · have hne : pyLower cur ≠ [] := fun h => hcur ((pyLower_nil_iff cur).mp h)
        unfold pySplitWsAux
        rw [if_pos hws', if_neg hne, if_pos hws, if_neg hcur]
        simp only [List.map_cons]
        have ih0 : pySplitWsAux [] (pyLower cs) = List.map pyLower (pySplitWsAux [] cs) :=
          ih []
        have hrev : pyLower cur.reverse = (pyLower cur).reverse :=
          List.map_reverse toLowerC cur
        rw [ih0, hrev]
    · have hws' : isWs (toLowerC c) = false := by rw [isWs_toLowerC]; exact eq_false_of_ne_true hws
      unfold pySplitWsAux
      rw [if_neg (by simp [hws']), if_neg (by simp [hws])]
      have : (toLowerC c :: pyLower cur) = pyLower (c :: cur) := rfl
      rw [this]
      exact ih (c :: cur)

theorem pySplitWs_pyLower (s : PyStr) :
    pySplitWs (pyLower s) = (pySplitWs s).map pyLower := by
  unfold pySplitWs
  have h := pySplitWsAux_pyLower s []
  simpa [pyLower] using h

/-- Every theme is the title-casing of an all-lowercase word that is not a
(lower-cased) whitespace-separated word of the topic. -/
theorem theme_origin (texts : List PyStr) (topic t : PyStr)
    (ht : t ∈ extract_meaningful_themes texts topic) :
    ∃ w : PyStr, t = pyTitle w ∧ w.all isLowerC = true ∧
      w ∉ pySplitWs (pyLower topic) := by
  simp only [extract_meaningful_themes] at ht
  have ht2 := List.take_subset _ _ ht
  obtain ⟨p, hp, hpt⟩ := List.mem_map.mp ht2
  have hp1 := (List.mem_filter.mp hp).1
  have hw : p.1 ∈ (alphaTokens 5 (pyLower (pyJoin (pystr " ") texts))).filter
      (fun w => ¬ (baseStopWords ++ pySplitWs (pyLower topic)).contains w) :=
    mem_mostCommon 8 _ p hp1
  have hw2 := List.mem_filter.mp hw
  have halpha := mem_alphaTokens 5 _ p.1 hw2.1
  have hlower : p.1.all isLowerC = true := by
    rw [List.all_eq_true]
    intro c hc
    exact isLowerC_of_alpha_not_upper c
      (by
        have := halpha.1
        rw [List.all_eq_true] at this
        exact this c hc)
      (not_upper_of_mem_pyLower _ c (halpha.2 c hc))
  have hnstop : p.1 ∉ pySplitWs (pyLower topic) := by
    intro hmem
    have := hw2.2
    rw [decide_eq_true_eq] at this
    exact this (List.elem_iff.mpr (List.mem_append_right _ hmem))
  exact ⟨p.1, hpt.symm ▸ rfl, hlower, hnstop⟩

theorem extract_themes_length (texts : List PyStr) (topic : PyStr) :
    (extract_meaningful_themes texts topic).length ≤ 5 := by
  simp only [extract_meaningful_themes]
  exact List.length_take_le _ _

/-- C2: For every document collection and every topic string, the Lexical
Analyzer returns without raising an exception (it is a total function):
its keyword list has length at most 10, its theme list has length at most
5, no theme equals case-insensitively any whitespace-separated word of the
topic string, and when the collection contains no non-empty document texts
both the keyword list and the theme list are empty. -/
theorem C2_analyzer_bounds (docs : List Document) (topic : PyStr) :
    (analysisOf docs topic).keywords.length ≤ 10 ∧
    (analysisOf docs topic).themes.length ≤ 5 ∧
    (∀ t ∈ (analysisOf docs topic).themes, ∀ u ∈ pySplitWs topic,
      pyLower t ≠ pyLower u) ∧
    (allTexts docs = [] →
      (analysisOf docs topic).keywords = [] ∧ (analysisOf docs topic).themes = []) ∧
    (∀ s : ResearchState,
      (analyze_agent s).analysis_result = some (analysisOf s.raw_documents s.topic_query)) := by
  by_cases hempty : allTexts docs = []
  · refine ⟨?_, ?_, ?_, fun _ => ?_, fun s => rfl⟩ <;>
      simp [analysisOf, hempty]
  · refine ⟨?_, ?_, ?_, fun h => absurd h hempty, fun s => rfl⟩
    · simp only [analysisOf]
      rw [if_neg hempty]
      exact List.length_take_le _ _
    · simp only [analysisOf]
      rw [if_neg hempty]
      exact extract_themes_length _ _
    · intro t ht u hu heq
      simp only [analysisOf] at ht
      rw [if_neg hempty] at ht
      obtain ⟨w, hw1, hw2, hw3⟩ := theme_origin (allTexts docs) topic t ht
      have hlt : pyLower t = w := by
        rw [hw1]
        exact pyLower_pyTitle_of_lower w hw2
      have hu' : pyLower u ∈ pySplitWs (pyLower topic) := by
        rw [pySplitWs_pyLower]
        exact List.mem_map_of_mem pyLower hu
      rw [heq] at hlt
      rw [hlt] at hu'
      exact hw3 hu'

/-- Witness for C2 at concrete inputs: the empty collection yields empty
keyword and theme lists, and the concrete theme "Neural" extracted from a
one-document collection differs case-insensitively from the topic word
"ai". -/
theorem C2_analyzer_bounds_witness :
    ((analysisOf [] (pystr "ai")).keywords = [] ∧
     (analysisOf [] (pystr "ai")).themes = []) ∧
    pyLower (pystr "Neural") ≠ pyLower (pystr "ai") :=
  ⟨(C2_analyzer_bounds [] (pystr "ai")).2.2.2.1 (by decide),
   (C2_analyzer_bounds
      [⟨pystr "d1", pystr "t", pystr "u", pystr "s",
        pystr "neural neural networks networks stuff", pystr "dom"⟩]
      (pystr "ai")).2.2.1 (pystr "Neural") (by decide) (pystr "ai") (by decide)⟩

/-! ### Stage-isolation lemmas: each downstream stage writes only its own
fields, so the document list survives to the terminal state. -/

theorem analyze_agent_raw_documents (s : ResearchState) :
    (analyze_agent s).raw_documents = s.raw_documents := rfl

theorem validator_agent_raw_documents (s : ResearchState) :
    (validator_agent s).raw_documents = s.raw_documents := rfl

theorem summarizer_agent_raw_documents (llm : Option PyStr) (s : ResearchState) :
    (summarizer_agent llm s).raw_documents = s.raw_documents := by
  cases llm <;> rfl

theorem formatter_agent_raw_documents (build : List StoryItem → Option Unit)
    (now : PyStr) (s : ResearchState) :
    (formatter_agent build now s).raw_documents = s.raw_documents := rfl

/-- C3: If, for a topic query that is non-empty once stripped, the primary
search tier and the secondary search tier each raise or return no
documents, then search_agent returns a raw_documents list containing
exactly one synthetic placeholder document, and the run still reaches the
Terminal state (the composed total pipeline yields a final state carrying
exactly that placeholder). -/
theorem C3_search_fallback (topic : PyStr) (o1 o2 : Option (List SearchResult))
    (ids1 ids2 : Nat → PyStr) (llm : Option PyStr)
    (build : List StoryItem → Option Unit) (now : PyStr)
    (hq : pyStrip topic ≠ [])
    (h1 : o1 = none ∨ o1 = some []) (h2 : o2 = none ∨ o2 = some []) :
    (search_agent o1 o2 ids1 ids2 (initState topic)).raw_documents =
      [placeholderDoc (pyStrip topic)] ∧
    (runWorkflow o1 o2 ids1 ids2 llm build now topic).raw_documents =
      [placeholderDoc (pyStrip topic)] := by
  have hsearch : (search_agent o1 o2 ids1 ids2 (initState topic)).raw_documents =
      [placeholderDoc (pyStrip topic)] := by
    simp only [search_agent, initState]
    rw [if_neg hq]
    rcases h1 with h1 | h1 <;> rcases h2 with h2 | h2 <;> subst h1 <;> subst h2 <;>
      simp [tavily_search, tierDocs, setRawDocuments]
  refine ⟨hsearch, ?_⟩
  unfold runWorkflow
  rw [formatter_agent_raw_documents, summarizer_agent_raw_documents,
    validator_agent_raw_documents, analyze_agent_raw_documents]
  exact hsearch

/-- Witness for C3 at a concrete run: topic "ai", both tiers raising. -/
theorem C3_search_fallback_witness :
    (runWorkflow none none (fun _ => []) (fun _ => []) none (fun _ => none) []
        (pystr "ai")).raw_documents =
      [placeholderDoc (pyStrip (pystr "ai"))] :=
  (C3_search_fallback (pystr "ai") none none (fun _ => []) (fun _ => []) none
    (fun _ => none) [] (by decide) (Or.inl rfl) (Or.inl rfl)).2

/-- C10: For every topic query that is empty or consists only of
whitespace, the Search stage returns raw_documents equal to the empty list
without attempting any search tier (the result below holds for arbitrary
tier oracles, so no tier is consulted), so no synthetic placeholder
document is produced and the downstream analyzer takes its
empty-collection path. -/
theorem C10_blank_query (s : ResearchState) (o1 o2 : Option (List SearchResult))
    (ids1 ids2 : Nat → PyStr) (h : s.topic_query.all isWs = true) :
    (search_agent o1 o2 ids1 ids2 s).raw_documents = [] ∧
    (analyze_agent (search_agent o1 o2 ids1 ids2 s)).analysis_result =
      some ⟨[], [], some (pystr "No content to analyze"), 0, none⟩ := by
  have hstrip : pyStrip s.topic_query = [] := by
    unfold pyStrip
    have h1 : s.topic_query.dropWhile isWs = [] := by
      rw [List.dropWhile_eq_nil_iff]
      rw [List.all_eq_true] at h
      exact h
    rw [h1]
    rfl
  have hdocs : (search_agent o1 o2 ids1 ids2 s).raw_documents = [] := by
    simp only [search_agent]
    rw [if_pos hstrip]
    rfl
  refine ⟨hdocs, ?_⟩
  show (setAnalysis _ (analysisOf (search_agent o1 o2 ids1 ids2 s).raw_documents _)).analysis_result = _
  rw [hdocs]
  rfl

/-- Witness for C10 at a concrete whitespace-only topic. -/
theorem C10_blank_query_witness :
    (search_agent none none (fun _ => []) (fun _ => [])
        (initState (pystr "  "))).raw_documents = [] :=
  (C10_blank_query (initState (pystr "  ")) none none (fun _ => []) (fun _ => [])
    (by decide)).1

/-- C9 (amended): a tier-1 document's snippet is the provider content
truncated to 200 characters, hence at most 200 characters; a tier-2
document's snippet obeys the bound only when the provider record has no
snippet field (a provider-supplied snippet is passed through unmodified);
and the synthetic placeholder's snippet has exactly 57 characters more
than the query, so it exceeds 200 exactly for queries longer than 143
characters. -/
theorem C9_snippet_truncation :
    (∀ (q ident : PyStr) (r : SearchResult) (d : Document),
        docOfResult1 q ident r = some d → d.snippet.length ≤ 200) ∧
    (∀ (q ident : PyStr) (r : SearchResult) (d : Document),
        r.snippet = none → docOfResult2 q ident r = some d →
          d.snippet.length ≤ 200) ∧
    (∀ q : PyStr, (placeholderDoc q).snippet.length = q.length + 57) := by
  refine ⟨?_, ?_, ?_⟩
  · intro q ident r d h
    unfold docOfResult1 at h
    cases hd : sourceDomain r.url with
    | none => rw [hd] at h; simp at h
    | some dom =>
      rw [hd] at h
      simp only [Option.some.injEq] at h
      rw [← h]
      exact List.length_take_le _ _
  · intro q ident r d hsn h
    unfold docOfResult2 at h
    rw [hsn] at h
    cases hd : sourceDomain r.url with
    | none => rw [hd] at h; simp at h
    | some dom =>
      rw [hd] at h
      simp only [Option.some.injEq] at h
      rw [← h]
      exact List.length_take_le _ _
  · intro q
    show (pystr "Simulated content for " ++ q ++
      pystr ". Please check your Tavily API key.").length = q.length + 57
    rw [List.length_append, List.length_append]
    have l1 : (pystr "Simulated content for ").length = 22 := by decide
    have l2 : (pystr ". Please check your Tavily API key.").length = 35 := by decide
    omega

/-- Witness for C9 (amended) at a concrete tier-1 result whose content has
300 characters: the stored snippet has 200. -/
theorem C9_snippet_truncation_witness :
    (Document.mk [] (pystr "q") [] (List.replicate 200 98) (List.replicate 300 98)
        (pystr "unknown")).snippet.length ≤ 200 :=
  C9_snippet_truncation.1 (pystr "q") [] ⟨none, none, none, some (List.replicate 300 98)⟩
    _ (by decide)

/-- C9 counterexample: a tier-2 (secondary search) provider record carrying
a 201-character snippet field yields a Document whose snippet has 201
characters, so not every search-stage Document has a snippet of at most
200 characters. -/
theorem C9_snippet_counterexample :
    ((tavily_search (pystr "ai") none
        (some [⟨none, none, some (List.replicate 201 97), none⟩])
        (fun _ => []) (fun _ => [])).map (fun d => d.snippet.length)) = [201] ∧
    ¬ (201 ≤ 200) := by
  exact ⟨by decide, by decide⟩

/-- C4 (amended): if the PDF layout engine raises on every invocation, the
Format stage's pdf_path is empty and the run still reaches Terminal with
all upstream state fields unchanged; the formatted_report is the normal
success-branch report with no error marker, because `generate_pdf` absorbs
the render failure internally (full story, then simple story, then the
empty path) and the formatter's exception branch never runs. -/
theorem C4_render_failure (s : ResearchState)
    (build : List StoryItem → Option Unit) (now : PyStr)
    (hb : ∀ st, build st = none) :
    (formatter_agent build now s).topic_query = s.topic_query ∧
    (formatter_agent build now s).raw_documents = s.raw_documents ∧
    (formatter_agent build now s).analysis_result = s.analysis_result ∧
    (formatter_agent build now s).validation_result = s.validation_result ∧
    (formatter_agent build now s).final_summary = s.final_summary ∧
    (formatter_agent build now s).pdf_path = [] ∧
    ∃ r : Report, (formatter_agent build now s).formatted_report = some r ∧
      r.error = none := by
  refine ⟨rfl, rfl, rfl, rfl, rfl, ?_, ⟨_, rfl, rfl⟩⟩
  show generate_pdf build now s.topic_query s.final_summary s.analysis_result
    s.raw_documents s.validation_result = []
  simp [generate_pdf, generate_simple_pdf, hb]

/-- Witness for C4 (amended) at a concrete state and an always-raising
layout engine. -/
theorem C4_render_failure_witness :
    (formatter_agent (fun _ => none) [] (initState (pystr "t"))).pdf_path = [] :=
  (C4_render_failure (initState (pystr "t")) (fun _ => none) []
    (fun _ => rfl)).2.2.2.2.2.1

/-- C4 counterexample: with an always-raising layout engine the Format
stage output has an empty pdf_path but its formatted_report carries no
error marker (`error = none`), contradicting the claim that the output
contains an error marker field. -/
theorem C4_error_marker_counterexample :
    (formatter_agent (fun _ => none) [] (initState [])).pdf_path = [] ∧
    (formatter_agent (fun _ => none) [] (initState [])).formatted_report.map
      Report.error = some none := by
  exact ⟨by decide, by decide⟩

/-! ### Supporting lemmas for the structurer claims -/

theorem pySplitChAux_no_sep (sep : Nat) :
    ∀ (s cur : PyStr), sep ∉ cur → ∀ l ∈ pySplitChAux sep cur s, sep ∉ l := by
  intro s
  induction s with
  | nil =>
    intro cur hcur l hl
    simp only [pySplitChAux, List.mem_singleton] at hl
    subst hl
    rw [List.mem_reverse]
    exact hcur
  | cons c cs ih =>
    intro cur hcur l hl
    by_cases hc : c = sep
    · simp only [pySplitChAux, if_pos hc] at hl
      rcases List.mem_cons.mp hl with h | h
      · subst h
        rw [List.mem_reverse]
        exact hcur
      · exact ih [] (List.not_mem_nil sep) l h
    · simp only [pySplitChAux, if_neg hc] at hl
      refine ih (c :: cur) ?_ l hl
      intro hmem
      rcases List.mem_cons.mp hmem with h | h
      · exact hc h.symm
      · exact hcur h

theorem pySplitCh_no_sep (sep : Nat) (s : PyStr) :
    ∀ l ∈ pySplitCh sep s, sep ∉ l :=
  pySplitChAux_no_sep sep s [] (List.not_mem_nil sep)

theorem pySplitChAux_single (sep : Nat) :
    ∀ (s cur : PyStr), sep ∉ s → pySplitChAux sep cur s = [cur.reverse ++ s] := by
  intro s
  induction s with
  | nil => intro cur _; simp [pySplitChAux]
  | cons c cs ih =>
    intro cur hs
    have hc : ¬ c = sep := fun h => hs (h ▸ List.mem_cons_self c cs)
    simp only [pySplitChAux, if_neg hc]
    rw [ih (c :: cur) (fun h => hs (List.mem_cons_of_mem c h))]
    simp

theorem pySplitCh_single (sep : Nat) (s : PyStr) (hs : sep ∉ s) :
    pySplitCh sep s = [s] := by
  unfold pySplitCh
  rw [pySplitChAux_single sep s [] hs]
  rfl

theorem pyStrip_subset (l : PyStr) : ∀ c ∈ pyStrip l, c ∈ l := by
  intro c hc
  unfold pyStrip at hc
  rw [List.mem_reverse] at hc
  have h1 := (List.dropWhile_sublist isWs).subset hc
  rw [List.mem_reverse] at h1
  exact (List.dropWhile_sublist isWs).subset h1

theorem pyJoin_not_mem (sep : PyStr) (c : Nat) (hsep : c ∉ sep) :
    ∀ (parts : List PyStr), (∀ p ∈ parts, c ∉ p) → c ∉ pyJoin sep parts := by
  intro parts
  induction parts with
  | nil => intro _; simp [pyJoin]
  | cons x rest ih =>
    intro hp
    cases rest with
    | nil =>
      show c ∉ pyJoin sep [x]
      simp only [pyJoin]
      exact hp x (List.mem_cons_self x [])
    | cons y rest2 =>
      show c ∉ pyJoin sep (x :: y :: rest2)
      simp only [pyJoin]
      intro hmem
      rcases List.mem_append.mp hmem with h | h
      · rcases List.mem_append.mp h with h' | h'
        · exact hp x (List.mem_cons_self x _) h'
        · exact hsep h'
      · exact ih (fun p hmem2 => hp p (List.mem_cons_of_mem x hmem2)) h

theorem extract_bullet_content_single (t : PyStr) (ht : (10 : Nat) ∉ t) :
    extract_bullet_content t = extractBulletLine t := by
  unfold extract_bullet_content
  rw [pySplitCh_single 10 t ht]
  simp

theorem format_bullet_points_single (t : PyStr) (ht : (10 : Nat) ∉ t) :
    format_bullet_points t = formatLine t := by
  unfold format_bullet_points
  rw [pySplitCh_single 10 t ht]
  simp

theorem csStep_fold_no_header :
    ∀ (lines : List PyStr) (cs : List PyStr),
      (∀ l ∈ lines, (isHeaderLine (pyStrip l) && decide ((pyStrip l).length < 100)) = false) →
      lines.foldl csStep ⟨[], 0, ⟨[], cs, 0⟩⟩ =
        ⟨[], 0, ⟨[], cs ++ (lines.map pyStrip).filter (fun l => l ≠ []), 0⟩⟩ := by
  intro lines
  induction lines with
  | nil => intro cs _; simp
  | cons raw rest ih =>
    intro cs hno
    have hraw := hno raw (List.mem_cons_self raw rest)
    simp only [List.foldl_cons]
    by_cases hblank : pyStrip raw = []
    · have hstep : csStep ⟨[], 0, ⟨[], cs, 0⟩⟩ raw = ⟨[], 0, ⟨[], cs, 0⟩⟩ := by
        simp only [csStep]
        rw [if_pos hblank]
      rw [hstep, ih cs (fun l hl => hno l (List.mem_cons_of_mem raw hl))]
      simp [hblank]
    · have hstep : csStep ⟨[], 0, ⟨[], cs, 0⟩⟩ raw =
          ⟨[], 0, ⟨[], cs ++ [pyStrip raw], 0⟩⟩ := by
        simp only [csStep]
        rw [if_neg hblank, if_neg (by simp [hraw])]
      rw [hstep, ih (cs ++ [pyStrip raw])
        (fun l hl => hno l (List.mem_cons_of_mem raw hl))]
      simp [hblank]

/-- C6 (amended): for every input narrative whose header-stripped text has
at least one non-blank line and in which no line satisfies the
header-classification rules, the Report Text Structurer returns exactly
one section with empty title (and no number) whose content is all
non-blank stripped lines, in order; that section renders with no heading,
and its content is space-joined into a single line which renders as a
bulleted list exactly when the joined line passes the bullet test
(`extractBulletLine`), and as prose otherwise. -/
theorem C6_no_header (s : PyStr)
    (hno : ∀ l ∈ pySplitCh 10 (stripHash s),
      (isHeaderLine (pyStrip l) && decide ((pyStrip l).length < 100)) = false)
    (hnb : ∃ l ∈ pySplitCh 10 (stripHash s), pyStrip l ≠ []) :
    clean_summary_text s =
      [⟨[], ((pySplitCh 10 (stripHash s)).map pyStrip).filter (fun l => l ≠ []), 0⟩] ∧
    ∀ sec ∈ clean_summary_text s,
      renderSection sec =
        some ⟨none,
          extractBulletLine (pyJoin (pystr " ") sec.content),
          if extractBulletLine (pyJoin (pystr " ") sec.content) = [] then
            formatLine (pyJoin (pystr " ") sec.content)
          else []⟩ := by
  obtain ⟨l0, hl0, hl0nb⟩ := hnb
  have hcontentne :
      ((pySplitCh 10 (stripHash s)).map pyStrip).filter (fun l => l ≠ []) ≠ [] := by
    apply List.ne_nil_of_mem (a := pyStrip l0)
    rw [List.mem_filter]
    exact ⟨List.mem_map_of_mem pyStrip hl0, by simp [hl0nb]⟩
  have hmain : clean_summary_text s =
      [⟨[], ((pySplitCh 10 (stripHash s)).map pyStrip).filter (fun l => l ≠ []), 0⟩] := by
    simp only [clean_summary_text]
    rw [csStep_fold_no_header (pySplitCh 10 (stripHash s)) [] hno]
    have hex : ∃ x ∈ pySplitCh 10 (stripHash s), ¬ pyStrip x = [] := ⟨l0, hl0, hl0nb⟩
    simp [hex]
  refine ⟨hmain, ?_⟩
  intro sec hsec
  rw [hmain, List.mem_singleton] at hsec
  subst hsec
  have hnotten : ∀ x ∈ ((pySplitCh 10 (stripHash s)).map pyStrip).filter
      (fun l => l ≠ []), (10 : Nat) ∉ x := by
    intro x hx
    have hx1 := (List.mem_filter.mp hx).1
    obtain ⟨lf, hlf, hlx⟩ := List.mem_map.mp hx1
    subst hlx
    intro hten
    exact pySplitCh_no_sep 10 (stripHash s) lf hlf (pyStrip_subset lf 10 hten)
  have hjoin : (10 : Nat) ∉ pyJoin (pystr " ")
      (((pySplitCh 10 (stripHash s)).map pyStrip).filter (fun l => l ≠ [])) :=
    pyJoin_not_mem (pystr " ") 10 (by decide) _ hnotten
  simp only [renderSection]
  rw [if_neg (by decide : ¬ (pyStrip ([] : PyStr) ≠ []))]
  rw [if_neg hcontentne]
  rw [extract_bullet_content_single _ hjoin]
  by_cases hbul : extractBulletLine (pyJoin (pystr " ")
      (((pySplitCh 10 (stripHash s)).map pyStrip).filter (fun l => l ≠ []))) = []
  · rw [hbul]
    rw [if_neg (by simp), if_pos rfl]
    rw [format_bullet_points_single _ hjoin]
  · rw [if_pos hbul, if_neg hbul]

/-- Witness for C6 (amended) at a concrete two-line header-free input. -/
theorem C6_no_header_witness :
    clean_summary_text (pystr "hello world\nmore text") =
      [⟨[], [pystr "hello world", pystr "more text"], 0⟩] := by
  have h := (C6_no_header (pystr "hello world\nmore text")
    (by decide) (by decide)).1
  rw [h]
  decide

/-- C6 counterexample: the empty input has no header line yet yields zero
sections rather than one, and the header-free input "- hello" yields a
single untitled section that renders as a bulleted list, not as prose. -/
theorem C6_no_header_counterexample :
    clean_summary_text (pystr "") = [] ∧
    (clean_summary_text (pystr "- hello")).map renderSection =
      [some ⟨none, [pystr "hello"], []⟩] := by
  exact ⟨by decide, by decide⟩

/-- C5 (amended): on the fixed input the Report Text Structurer produces
exactly two sections, section 1 titled "Introduction" with the single
prose line "This is text." and section 2 titled "Conclusion"; because the
renderer joins content lines with spaces before bullet extraction, section
2 renders as a bulleted list with exactly one item
"point one - point two". -/
theorem C5_structurer_roundtrip :
    clean_summary_text c5input =
      [⟨pystr "Introduction", [pystr "This is text."], 1⟩,
       ⟨pystr "Conclusion", [pystr "- point one", pystr "- point two"], 2⟩] ∧
    renderSection ⟨pystr "Introduction", [pystr "This is text."], 1⟩ =
      some ⟨some (pystr "1. Introduction"), [], [(false, pystr "This is text.")]⟩ ∧
    renderSection ⟨pystr "Conclusion", [pystr "- point one", pystr "- point two"], 2⟩ =
      some ⟨some (pystr "2. Conclusion"), [pystr "point one - point two"], []⟩ := by
  exact ⟨by decide, by decide, by decide⟩

/-- C5 counterexample: on the fixed input, section 2's content renders as
the single bullet item "point one - point two", not as the two items
"point one" and "point two". -/
theorem C5_structurer_counterexample :
    (clean_summary_text c5input).map renderSection =
      [some ⟨some (pystr "1. Introduction"), [], [(false, pystr "This is text.")]⟩,
       some ⟨some (pystr "2. Conclusion"), [pystr "point one - point two"], []⟩] ∧
    [pystr "point one - point two"] ≠ [pystr "point one", pystr "point two"] := by
  exact ⟨by decide, by decide⟩

/-- C8 (amended): a rendered section is dropped entirely if and only if
its stripped title is non-empty, its section number is 1, and the
lower-cased cleaned title CONTAINS "research summary" as a substring
(containment, not equality); every other section is rendered. -/
theorem C8_section_drop (sec : Section) :
    renderSection sec = none ↔
      (pyStrip sec.title ≠ [] ∧ sec.number = 1 ∧
       isSubstr (pystr "research summary")
         (pyLower (cleanTitle (pyStrip sec.title))) = true) := by
  simp only [renderSection]
  by_cases ht : pyStrip sec.title ≠ []
  · rw [if_pos ht]
    by_cases hc : (isSubstr (pystr "research summary")
        (pyLower (cleanTitle (pyStrip sec.title))) && decide (sec.number = 1)) = true
    · rw [if_pos hc]
      rw [Bool.and_eq_true, decide_eq_true_eq] at hc
      simp [ht, hc.1, hc.2]
    · rw [if_neg hc]
      rw [Bool.and_eq_true, decide_eq_true_eq] at hc
      simp only [Option.some_ne_none, false_iff]
      intro hcon
      exact hc ⟨hcon.2.2, hcon.2.1⟩
  · rw [if_neg ht]
    simp [ht]

/-- Witness for C8 (amended): a first section titled exactly
"Research Summary" is dropped. -/
theorem C8_section_drop_witness :
    renderSection ⟨pystr "Research Summary", [pystr "text"], 1⟩ = none :=
  (C8_section_drop ⟨pystr "Research Summary", [pystr "text"], 1⟩).mpr
    ⟨by decide, rfl, by decide⟩

/-- C8 counterexample: the input "Research Summary Overview\nsome text
here" produces a first section whose cleaned title does not equal
"research summary" case-insensitively, yet the section is dropped
entirely — so equality is not the drop criterion. -/
theorem C8_drop_counterexample :
    clean_summary_text (pystr "Research Summary Overview\nsome text here") =
      [⟨pystr "Research Summary Overview", [pystr "some text here"], 1⟩] ∧
    renderSection ⟨pystr "Research Summary Overview", [pystr "some text here"], 1⟩ =
      none ∧
    pyLower (cleanTitle (pystr "Research Summary Overview")) ≠
      pystr "research summary" := by
  exact ⟨by decide, by decide, by decide⟩

end SRA
